import Mathlib

/-!
Verification development for the `stash` encrypted-file vault
(`src/lib.rs`).  The Rust code is shallowly embedded: file contents are
`List Nat` byte buffers, the filesystem and the two secret tiers are
association lists from strings to byte buffers, and each `Stash` method
becomes a Lean function on an explicit state.  The AES-256-GCM cipher,
the tar collaborator and the random secret generator live outside the
repository; they enter as parameters (a keystream, a tag function, a
pack/unpack pair, an explicitly passed fresh secret), so every theorem
quantifies over them.
-/

namespace StashModel

/-- Byte strings are lists of naturals (each entry standing for one byte). -/
abbrev Bytes := List Nat

/-! ### Association-list maps (model of the filesystem, the sled db and the keyring) -/

/-- Look a key up in an association list: first binding wins. -/
def lookupKV : List (String × Bytes) → String → Option Bytes
  | [], _ => none
  | (k, v) :: rest, key => if k = key then some v else lookupKV rest key

/-- Remove every binding of a key. -/
def eraseKV : List (String × Bytes) → String → List (String × Bytes)
  | [], _ => []
  | (k', v) :: rest, k =>
      if k' = k then eraseKV rest k else (k', v) :: eraseKV rest k

/-- Overwrite the binding of a key. -/
def insertKV (m : List (String × Bytes)) (k : String) (v : Bytes) :
    List (String × Bytes) :=
  (k, v) :: eraseKV m k

/-- Does the map bind the key? (Models `Path::exists` on a directory listing.) -/
def hasKey (m : List (String × Bytes)) (k : String) : Bool :=
  (lookupKV m k).isSome

/-! ### Secret (`struct Secret { key: Vec<u8>, nonce: Vec<u8> }`) -/

/-- A key/nonce pair, as in `struct Secret`.  A freshly generated secret has
a 32-byte key and a 12-byte nonce; the struct itself does not enforce it. -/
structure Secret where
  key : Bytes
  nonce : Bytes
deriving DecidableEq, Repr

/-- `Secret::join`: the storage blob, key followed by nonce. -/
def Secret.join (s : Secret) : Bytes :=
  s.key ++ s.nonce

/-- `Secret::from(secret: &[u8])`, which slices `secret[..32]` and
`secret[32..]` with no length validation.  Rust slice indexing panics when
the blob is shorter than 32 bytes; `none` models that panic.  Any blob of
length ≥ 32 is accepted, whatever its length. -/
def Secret.fromBytes (b : Bytes) : Option Secret :=
  if b.length < 32 then none
  else some ⟨b.take 32, b.drop 32⟩

/-! ### The in-place AEAD transform (`Stash::encrypt` / `Stash::decrypt`)

AES-256-GCM is provided by the external `aes_gcm` crate.  We model its
structure: a stream cipher (a keystream derived from the secret, xored
byte-by-byte into the buffer) followed by a 16-byte authentication tag
appended to the ciphertext; decryption re-computes the tag over the
ciphertext and fails on mismatch.  The keystream `ks` and tag function
`tagf` are parameters. -/

/-- Xor a buffer with the keystream starting at position `i`. -/
def xorStreamFrom (ks : Nat → Nat) (i : Nat) : Bytes → Bytes
  | [] => []
  | b :: bs => (b ^^^ ks i) :: xorStreamFrom ks (i + 1) bs

/-- Xor a buffer with the keystream. -/
def xorStream (ks : Nat → Nat) (bs : Bytes) : Bytes :=
  xorStreamFrom ks 0 bs

/-- The buffer transform performed by `Stash::encrypt` between its read and
its write-back: AEAD-encrypt in place, appending the 16-byte tag. -/
def encryptBuf (ks : Secret → Nat → Nat) (tagf : Secret → Bytes → Bytes)
    (s : Secret) (pt : Bytes) : Bytes :=
  let ct := xorStream (ks s) pt
  ct ++ tagf s ct

/-- The buffer transform performed by `Stash::decrypt`: split off the
16-byte tag, recompute it over the ciphertext, fail (`none`, the AEAD
`Error`) on mismatch or on a buffer too short to hold a tag, otherwise
return the decrypted plaintext. -/
def decryptBuf (ks : Secret → Nat → Nat) (tagf : Secret → Bytes → Bytes)
    (s : Secret) (buf : Bytes) : Option Bytes :=
  if buf.length < 16 then none
  else
    let ct := buf.take (buf.length - 16)
    let tg := buf.drop (buf.length - 16)
    if tg = tagf s ct then some (xorStream (ks s) ct) else none

/-- `Stash::encrypt(path, secret)` at the filesystem level: open the file
(fails when absent), read it, transform the buffer, write it back in place.
The filesystem is the map `fs`. -/
def encryptFile (ks : Secret → Nat → Nat) (tagf : Secret → Bytes → Bytes)
    (fs : List (String × Bytes)) (name : String) (s : Secret) :
    Option (List (String × Bytes)) :=
  match lookupKV fs name with
  | none => none
  | some buf => some (insertKV fs name (encryptBuf ks tagf s buf))

/-- `Stash::decrypt(path, secret)` at the filesystem level: open the file,
read it, AEAD-decrypt the buffer (failing on tag mismatch), write back. -/
def decryptFile (ks : Secret → Nat → Nat) (tagf : Secret → Bytes → Bytes)
    (fs : List (String × Bytes)) (name : String) (s : Secret) :
    Option (List (String × Bytes)) :=
  match lookupKV fs name with
  | none => none
  | some buf =>
    match decryptBuf ks tagf s buf with
    | none => none
    | some pt => some (insertKV fs name pt)

/-! ### Basic lemmas -/

theorem xorStreamFrom_xorStreamFrom (ks : Nat → Nat) (i : Nat) (bs : Bytes) :
    xorStreamFrom ks i (xorStreamFrom ks i bs) = bs := by
  induction bs generalizing i with
  | nil => rfl
  | cons b bs ih =>
      simp [xorStreamFrom, ih, Nat.xor_cancel_right]

theorem xorStream_xorStream (ks : Nat → Nat) (bs : Bytes) :
    xorStream ks (xorStream ks bs) = bs :=
  xorStreamFrom_xorStreamFrom ks 0 bs

theorem xorStreamFrom_length (ks : Nat → Nat) (i : Nat) (bs : Bytes) :
    (xorStreamFrom ks i bs).length = bs.length := by
  induction bs generalizing i with
  | nil => rfl
  | cons b bs ih => simp [xorStreamFrom, ih]

theorem xorStream_length (ks : Nat → Nat) (bs : Bytes) :
    (xorStream ks bs).length = bs.length :=
  xorStreamFrom_length ks 0 bs

theorem lookupKV_insertKV_self (m : List (String × Bytes)) (k : String)
    (v : Bytes) : lookupKV (insertKV m k v) k = some v := by
  simp [insertKV, lookupKV]

theorem lookupKV_eraseKV (m : List (String × Bytes)) (k k' : String) :
    lookupKV (eraseKV m k) k' = if k' = k then none else lookupKV m k' := by
  induction m with
  | nil => simp [eraseKV, lookupKV]
  | cons kv rest ih =>
      obtain ⟨a, b⟩ := kv
      by_cases hak : a = k
      · subst hak
        by_cases hk : k' = a
        · subst hk
          simp [eraseKV, lookupKV, ih]
        · simp [eraseKV, lookupKV, hk, Ne.symm hk, ih]
      · by_cases hk : k' = a
        · subst hk
          simp [eraseKV, lookupKV, hak, Ne.symm hak, lookupKV]
        · simp [eraseKV, lookupKV, hak, hk, Ne.symm hk, ih]

theorem lookupKV_insertKV (m : List (String × Bytes)) (k k' : String)
    (v : Bytes) :
    lookupKV (insertKV m k v) k' =
      if k' = k then some v else lookupKV m k' := by
  by_cases h : k' = k
  · subst h; simp [lookupKV_insertKV_self]
  · simp [insertKV, lookupKV, h, Ne.symm h, lookupKV_eraseKV]

/-- Core round trip at the buffer level: decrypting an encryption with the
same secret recovers the plaintext, whenever the tag function produces
16-byte tags. -/
theorem decryptBuf_encryptBuf (ks : Secret → Nat → Nat)
    (tagf : Secret → Bytes → Bytes) (s : Secret) (pt : Bytes)
    (htag : (tagf s (xorStream (ks s) pt)).length = 16) :
    decryptBuf ks tagf s (encryptBuf ks tagf s pt) = some pt := by
  have hct : (xorStream (ks s) pt).length = pt.length := xorStream_length _ _
  have hlen : (encryptBuf ks tagf s pt).length = pt.length + 16 := by
    simp [encryptBuf, hct, htag]
  have hnot : ¬ (encryptBuf ks tagf s pt).length < 16 := by omega
  have hsub : (encryptBuf ks tagf s pt).length - 16 = pt.length := by omega
  have htake : (encryptBuf ks tagf s pt).take pt.length = xorStream (ks s) pt := by
    simpa [encryptBuf, hct] using
      (List.take_left (xorStream (ks s) pt) (tagf s (xorStream (ks s) pt)))
  have hdrop : (encryptBuf ks tagf s pt).drop pt.length
      = tagf s (xorStream (ks s) pt) := by
    simpa [encryptBuf, hct] using
      (List.drop_left (xorStream (ks s) pt) (tagf s (xorStream (ks s) pt)))
  simp only [decryptBuf, hnot, if_false, hsub, htake, hdrop, if_pos rfl]
  simp [xorStream_xorStream]

/-! ### The vault state machine (`struct Stash` and its methods)

The filesystem is split into the vault root (the non-hidden regular files
of `$HOME`, excluding the hidden `.db` store file), the caller's current
directory (files keyed by the path string used to reach them) and the set
of directory paths.  `sled` and the session keyring are association lists.
A Rust `Result` return value is `Res.ok` / `Res.err`; `Res.crash` marks the
one reachable panic (`Secret::from` on a blob shorter than 32 bytes). -/

/-- The `std::io::ErrorKind` values the code constructs. -/
inductive EKind where
  | notFound
  | alreadyExists
  | invalidInput
  | invalidData
  | ioOther
deriving DecidableEq, Repr

/-- An `std::io::Error`: a kind plus its message. -/
structure Err where
  kind : EKind
  msg : String
deriving DecidableEq, Repr

/-- Outcome of one method call. -/
inductive Res where
  | ok
  | crash
  | err (e : Err)
deriving DecidableEq, Repr

/-- Split a character list at `/` separators. -/
def splitOnSlash : List Char → List (List Char)
  | [] => [[]]
  | c :: rest =>
      let r := splitOnSlash rest
      if c = '/' then [] :: r
      else (c :: r.headI) :: r.tail

/-- `Path::new(p).file_name()`: the final normal component of the path,
`none` for paths that end in `..`, in `.` or have no component. -/
def fileName (p : String) : Option String :=
  let comps := (splitOnSlash p.data).filter fun c => decide (c ≠ [] ∧ c ≠ ['.'])
  match comps.getLast? with
  | none => none
  | some c => if c = ['.', '.'] then none else some (String.mk c)

/-- The in-memory `Stash` struct plus the on-disk state its methods touch:
`pathExists` is `self.path.exists()`, `vault` the regular (non-hidden)
files of the stash directory, `keyring` the session keyring and `db` the
sled store.  (If the stash directory is absent, `vault` is empty.) -/
structure Stash where
  pathExists : Bool
  vault : List (String × Bytes)
  isArchived : Bool
  keyring : List (String × Bytes)
  db : List (String × Bytes)
deriving DecidableEq, Repr

/-- A `Stash` together with the world outside the vault: the caller's
current directory (`cwd`, also the namespace `add`'s path argument is
resolved in) and the directory paths (`Path::is_dir`). -/
structure Sys where
  stash : Stash
  cwd : List (String × Bytes)
  cwdDirs : List String
deriving DecidableEq, Repr

/-- `Stash::new()`: open the stash rooted at `$HOME`; `is_archived` is not
read from anywhere — it is recomputed as `contents.exists()`. -/
def Stash.new (pathExists : Bool) (vault keyring db : List (String × Bytes)) :
    Stash :=
  { pathExists := pathExists
    vault := vault
    isArchived := hasKey vault "contents"
    keyring := keyring
    db := db }

/-- `Stash::add(file, copy)`.  The freshly generated random secret
(`Secret::new()`) is passed in as `s`. -/
def Sys.add (ks : Secret → Nat → Nat) (tagf : Secret → Bytes → Bytes)
    (σ : Sys) (file : String) (copy : Bool) (s : Secret) : Res × Sys :=
  let st := σ.stash
  if st.pathExists = false then
    (.err ⟨.notFound, "No stash found"⟩, σ)
  else if st.isArchived = true then
    (.err ⟨.invalidInput,
      "Stash is in archive mode. Call `stash unpack` before adding more files"⟩, σ)
  else if σ.cwdDirs.contains file then
    (.err ⟨.invalidInput, "Source file is a directory"⟩, σ)
  else
    match fileName file with
    | none => (.err ⟨.invalidInput, "Failed to resolve new file path"⟩, σ)
    | some name =>
      if hasKey st.vault name then
        (.err ⟨.alreadyExists, "File already in stash"⟩, σ)
      else
        match lookupKV σ.cwd file with
        | none =>
            -- `fs::copy` / `fs::rename` fails: the source file is absent
            (.err ⟨.notFound, "io: no such source file"⟩, σ)
        | some data =>
            let cwd' := if copy then σ.cwd else eraseKV σ.cwd file
            let vault' := insertKV st.vault name (encryptBuf ks tagf s data)
            let db' := insertKV st.db file s.join
            let kr' := insertKV st.keyring file s.join
            (.ok, { σ with
                     stash := { st with vault := vault', db := db', keyring := kr' }
                     cwd := cwd' })

/-- Tail of `Stash::grab` after the secret has been obtained: decrypt the
vault file in place, then copy or move it out.  `kr'` is the keyring as
left by the lookup (the cache invalidation has already happened, so it is
committed even when decryption fails). -/
def Sys.grabFinish (ks : Secret → Nat → Nat) (tagf : Secret → Bytes → Bytes)
    (σ : Sys) (file : String) (copy : Bool) (secret : Secret)
    (kr' : List (String × Bytes)) : Res × Sys :=
  let st := σ.stash
  let σ1 : Sys := { σ with stash := { st with keyring := kr' } }
  match lookupKV st.vault file with
  | none => (.err ⟨.ioOther, "Failed to decrypt file"⟩, σ1)
  | some buf =>
    match decryptBuf ks tagf secret buf with
    | none => (.err ⟨.ioOther, "Failed to decrypt file"⟩, σ1)
    | some pt =>
      let vault1 := insertKV st.vault file pt
      if copy then
        (.ok, { σ with
                 stash := { st with vault := vault1, keyring := kr' }
                 cwd := insertKV σ.cwd file pt })
      else
        (.ok, { σ with
                 stash := { st with
                             vault := eraseKV vault1 file
                             keyring := kr'
                             db := eraseKV st.db file
                             isArchived :=
                               if file = "contents" then false else st.isArchived }
                 cwd := insertKV σ.cwd file pt })

/-- `Stash::grab(file, copy)`: session keyring first (invalidating the
cache entry when the file is being moved out), sled second, then
"Secret not found". -/
def Sys.grab (ks : Secret → Nat → Nat) (tagf : Secret → Bytes → Bytes)
    (σ : Sys) (file : String) (copy : Bool) : Res × Sys :=
  let st := σ.stash
  if st.pathExists = false then
    (.err ⟨.notFound, "No stash found"⟩, σ)
  else if st.isArchived = true ∧ copy = false ∧ file ≠ "contents" then
    (.err ⟨.invalidInput, "Stash is in archive mode. Use `stash unpack` to unpack"⟩, σ)
  else if hasKey σ.cwd file then
    (.err ⟨.alreadyExists, "File already exists in current directory"⟩, σ)
  else
    match lookupKV st.keyring file with
    | some v =>
      match Secret.fromBytes v with
      | none => (.crash, σ)
      | some secret =>
          Sys.grabFinish ks tagf σ file copy secret
            (if copy then st.keyring else eraseKV st.keyring file)
    | none =>
      match lookupKV st.db file with
      | some v =>
        match Secret.fromBytes v with
        | none => (.crash, σ)
        | some secret => Sys.grabFinish ks tagf σ file copy secret st.keyring
      | none => (.err ⟨.notFound, "Secret not found"⟩, σ)

/-- `Stash::delete(file)`. -/
def Sys.delete (σ : Sys) (file : String) : Res × Sys :=
  let st := σ.stash
  if st.pathExists = false then
    (.err ⟨.notFound, "No stash found"⟩, σ)
  else if st.isArchived = true ∧ file ≠ "contents" then
    (.err ⟨.invalidInput, "Stash is in archive mode. Use `stash unpack` to unpack"⟩, σ)
  else if file = ".db" ∨ file = ".secret" then
    (.err ⟨.invalidInput, "Cannot delete program file " ++ file⟩, σ)
  else if hasKey st.vault file = false then
    (.err ⟨.invalidInput, "File not found in stash"⟩, σ)
  else
    (.ok, { σ with
             stash := { st with
                         vault := eraseKV st.vault file
                         db := eraseKV st.db file
                         keyring := eraseKV st.keyring file
                         isArchived :=
                           if file = "contents" then false else st.isArchived } })

/-- `Stash::archive()`.  `create_tarball` shells out to
`tar czf contents --remove-files ./*`: all non-hidden vault files are
collapsed into the single `contents` file (modelled by the abstract `pack`)
and removed; with no file matching `./*` the subprocess fails.  The fresh
`Secret::new()` is passed in as `s`. -/
def Sys.archive (ks : Secret → Nat → Nat) (tagf : Secret → Bytes → Bytes)
    (pack : List (String × Bytes) → Bytes) (σ : Sys) (s : Secret) :
    Res × Sys :=
  let st := σ.stash
  if st.pathExists = false then
    (.err ⟨.notFound, "No stash found"⟩, σ)
  else if st.isArchived = true then
    (.err ⟨.invalidInput, "Archive already exists"⟩, σ)
  else if st.db = [] then
    (.err ⟨.invalidInput, "No files in stash: .db is empty"⟩, σ)
  else if st.vault = [] then
    (.err ⟨.ioOther, "Failed to create tarball"⟩, σ)
  else
    (.ok, { σ with
             stash := { st with
                         vault := [("contents", encryptBuf ks tagf s (pack st.vault))]
                         db := insertKV st.db "contents" s.join
                         keyring := insertKV st.keyring "contents" s.join
                         isArchived := true } })

/-- Tail of `Stash::unpack` after the secret has been obtained: decrypt the
`contents` file in place, extract it (the abstract `unpk`, modelling
`tar xzf contents`; `none` is a failing subprocess), remove the extracted
container, drop its db entry, clear the flag. -/
def Sys.unpackFinish (ks : Secret → Nat → Nat) (tagf : Secret → Bytes → Bytes)
    (unpk : Bytes → Option (List (String × Bytes))) (σ : Sys)
    (secret : Secret) (kr' : List (String × Bytes)) : Res × Sys :=
  let st := σ.stash
  let σ1 : Sys := { σ with stash := { st with keyring := kr' } }
  match lookupKV st.vault "contents" with
  | none => (.err ⟨.ioOther, "Failed to decrypt file"⟩, σ1)
  | some buf =>
    match decryptBuf ks tagf secret buf with
    | none => (.err ⟨.ioOther, "Failed to decrypt file"⟩, σ1)
    | some pt =>
      let vault1 := insertKV st.vault "contents" pt
      match unpk pt with
      | none => (.err ⟨.ioOther, "Failed to extract archive"⟩,
                 { σ with stash := { st with vault := vault1, keyring := kr' } })
      | some entries =>
        (.ok, { σ with
                 stash := { st with
                             vault := eraseKV
                               (entries.foldl (fun m kv => insertKV m kv.1 kv.2) vault1)
                               "contents"
                             keyring := kr'
                             db := eraseKV st.db "contents"
                             isArchived := false } })

/-- `Stash::unpack()`: look the container's secret up (keyring first, its
cache entry always invalidated on a hit, sled second), then decrypt and
extract. -/
def Sys.unpack (ks : Secret → Nat → Nat) (tagf : Secret → Bytes → Bytes)
    (unpk : Bytes → Option (List (String × Bytes))) (σ : Sys) : Res × Sys :=
  let st := σ.stash
  if st.pathExists = false then
    (.err ⟨.notFound, "No stash found"⟩, σ)
  else if st.isArchived = false then
    (.err ⟨.invalidInput, "No archive exists"⟩, σ)
  else
    match lookupKV st.keyring "contents" with
    | some v =>
      match Secret.fromBytes v with
      | none => (.crash, σ)
      | some secret =>
          Sys.unpackFinish ks tagf unpk σ secret (eraseKV st.keyring "contents")
    | none =>
      match lookupKV st.db "contents" with
      | some v =>
        match Secret.fromBytes v with
        | none => (.crash, σ)
        | some secret => Sys.unpackFinish ks tagf unpk σ secret st.keyring
      | none => (.err ⟨.notFound, "Secret not found"⟩, σ)

/-- The two-tier lookup policy of `grab`/`unpack`, as a function: session
keyring first, sled store second. -/
def Stash.lookupSecret (st : Stash) (file : String) : Option Secret :=
  match lookupKV st.keyring file with
  | some v => Secret.fromBytes v
  | none =>
    match lookupKV st.db file with
    | some v => Secret.fromBytes v
    | none => none

/-! ### Concrete instantiations of the external parameters, used by the
witnesses below. -/

/-- A trivial keystream (witness instantiation of the AEAD parameter). -/
def ksTriv : Secret → Nat → Nat := fun _ _ => 0

/-- A trivial 16-byte tag function (witness instantiation). -/
def tagTriv : Secret → Bytes → Bytes := fun _ _ => List.replicate 16 0

/-- A trivial tar pack function (witness instantiation). -/
def packTriv : List (String × Bytes) → Bytes := fun _ => [0]

/-- A trivial tar extract function (witness instantiation). -/
def unpkTriv : Bytes → Option (List (String × Bytes)) := fun _ => some []

/-- A well-formed concrete secret: 32-byte key, 12-byte nonce. -/
def secretTriv : Secret := ⟨List.replicate 32 0, List.replicate 12 0⟩

/-- A second well-formed concrete secret, distinct from `secretTriv`. -/
def secretTriv2 : Secret := ⟨List.replicate 32 1, List.replicate 12 1⟩

/-! ### The claims -/

/-- C1: for every file contents `F` and every secret `S`, encrypting the
file in place with `S` (`Stash::encrypt`) and then decrypting the result in
place with the same `S` (`Stash::decrypt`) succeeds and restores exactly
the original bytes `F` — for any AES-GCM keystream and any 16-byte tag
function. -/
theorem C1_encrypt_decrypt_roundtrip (ks : Secret → Nat → Nat)
    (tagf : Secret → Bytes → Bytes) (s : Secret)
    (htag : ∀ ct : Bytes, (tagf s ct).length = 16)
    (fs : List (String × Bytes)) (name : String) (F : Bytes)
    (hF : lookupKV fs name = some F) :
    ∃ fs', encryptFile ks tagf fs name s = some fs' ∧
      ∃ fs'', decryptFile ks tagf fs' name s = some fs'' ∧
        lookupKV fs'' name = some F := by
  refine ⟨insertKV fs name (encryptBuf ks tagf s F), by simp [encryptFile, hF], ?_⟩
  refine ⟨insertKV (insertKV fs name (encryptBuf ks tagf s F)) name F, ?_, ?_⟩
  · simp [decryptFile, lookupKV_insertKV_self,
      decryptBuf_encryptBuf ks tagf s F (htag _)]
  · simp [lookupKV_insertKV_self]

/-- Witness for C1 at a concrete file and secret. -/
theorem C1_encrypt_decrypt_roundtrip_witness :
    ∃ fs', encryptFile ksTriv tagTriv [("note.txt", [1, 2, 3])] "note.txt"
        secretTriv = some fs' ∧
      ∃ fs'', decryptFile ksTriv tagTriv fs' "note.txt" secretTriv = some fs'' ∧
        lookupKV fs'' "note.txt" = some [1, 2, 3] :=
  C1_encrypt_decrypt_roundtrip ksTriv tagTriv secretTriv
    (fun _ => by simp [tagTriv]) [("note.txt", [1, 2, 3])] "note.txt" [1, 2, 3]
    (by decide)

/-- C2 counterexample: `Secret::from` performs no length validation at all.
A 43-byte blob (length ≠ 44) is deserialized successfully instead of
failing with a corruption error, and a 10-byte blob makes the slice
indexing `secret[..32]` panic (modelled by `none`) instead of returning an
error. -/
theorem C2_counterexample :
    (∃ s, Secret.fromBytes (List.replicate 43 0) = some s) ∧
    Secret.fromBytes (List.replicate 10 0) = none := by
  exact ⟨⟨⟨List.replicate 32 0, List.replicate 11 0⟩, by decide⟩, by decide⟩

/-- C2 amended: `Secret::from` never returns a corruption error.  On any
blob of length ≥ 32 (44 or not) it succeeds, taking the first 32 bytes as
the key and the whole remainder as the nonce; on any blob shorter than 32
bytes it panics (slice index out of range). -/
theorem C2_fromBytes_no_validation (b : Bytes) :
    (32 ≤ b.length →
      ∃ s, Secret.fromBytes b = some s ∧ s.join = b ∧ s.key.length = 32 ∧
        s.nonce.length = b.length - 32) ∧
    (b.length < 32 → Secret.fromBytes b = none) := by
  constructor
  · intro h
    refine ⟨⟨b.take 32, b.drop 32⟩, ?_, ?_, ?_, ?_⟩
    · simp [Secret.fromBytes, Nat.not_lt.mpr h]
    · simp [Secret.join]
    · simp [List.length_take]; omega
    · simp [List.length_drop]
  · intro h
    simp [Secret.fromBytes, h]

/-- Witness for the amended C2, at a 44-byte blob and at a 1-byte blob. -/
theorem C2_fromBytes_no_validation_witness :
    (∃ s, Secret.fromBytes (List.replicate 44 1) = some s ∧
      s.join = List.replicate 44 1 ∧ s.key.length = 32 ∧
      s.nonce.length = (List.replicate 44 (1 : Nat)).length - 32) ∧
    Secret.fromBytes [0] = none :=
  ⟨(C2_fromBytes_no_validation (List.replicate 44 1)).1 (by decide),
   (C2_fromBytes_no_validation [0]).2 (by decide)⟩

/-- C10: deserializing the 44-byte serialization of a generated secret
(32-byte key, 12-byte nonce) yields the secret back:
`Secret::from(secret.join()) == secret`. -/
theorem C10_secret_roundtrip (s : Secret) (hk : s.key.length = 32)
    (hn : s.nonce.length = 12) :
    Secret.fromBytes s.join = some s := by
  obtain ⟨k, n⟩ := s
  dsimp only at hk hn
  have hlen : ¬ (k ++ n).length < 32 := by
    rw [List.length_append, hk, hn]; omega
  have h1 : (k ++ n).take 32 = k := by rw [← hk]; exact List.take_left _ _
  have h2 : (k ++ n).drop 32 = n := by rw [← hk]; exact List.drop_left _ _
  simp [Secret.fromBytes, Secret.join, hlen, h1, h2, hk, hn]

/-- Witness for C10 at a concrete generated secret. -/
theorem C10_secret_roundtrip_witness :
    Secret.fromBytes secretTriv.join = some secretTriv :=
  C10_secret_roundtrip secretTriv (by decide) (by decide)

/-! ### Helper lemmas about the `grab`/`unpack` tails -/

/-- Whatever else happens in the tail of `grab`, the keyring it leaves
behind is exactly the one produced by the lookup step (the invalidation is
committed even when decryption fails afterwards). -/
theorem grabFinish_keyring (ks : Secret → Nat → Nat)
    (tagf : Secret → Bytes → Bytes) (σ : Sys) (file : String) (copy : Bool)
    (secret : Secret) (kr' : List (String × Bytes)) :
    ((Sys.grabFinish ks tagf σ file copy secret kr').2).stash.keyring = kr' := by
  cases hv : lookupKV σ.stash.vault file with
  | none => simp [Sys.grabFinish, hv]
  | some buf =>
    cases hd : decryptBuf ks tagf secret buf with
    | none => simp [Sys.grabFinish, hv, hd]
    | some pt => cases copy <;> simp [Sys.grabFinish, hv, hd]

/-- Shape of a successful move (`copy = false`) tail of `grab`. -/
theorem grabFinish_move_state (ks : Secret → Nat → Nat)
    (tagf : Secret → Bytes → Bytes) (σ : Sys) (file : String)
    (secret : Secret) (kr' : List (String × Bytes)) (σ' : Sys)
    (h : Sys.grabFinish ks tagf σ file false secret kr' = (Res.ok, σ')) :
    ∃ buf pt, lookupKV σ.stash.vault file = some buf ∧
      decryptBuf ks tagf secret buf = some pt ∧
      σ' = { σ with
              stash := { σ.stash with
                          vault := eraseKV (insertKV σ.stash.vault file pt) file
                          keyring := kr'
                          db := eraseKV σ.stash.db file
                          isArchived := if file = "contents" then false
                                        else σ.stash.isArchived }
              cwd := insertKV σ.cwd file pt } := by
  cases hv : lookupKV σ.stash.vault file with
  | none => simp [Sys.grabFinish, hv] at h
  | some buf =>
    cases hd : decryptBuf ks tagf secret buf with
    | none => simp [Sys.grabFinish, hv, hd] at h
    | some pt =>
      refine ⟨buf, pt, rfl, hd, ?_⟩
      simp [Sys.grabFinish, hv, hd] at h
      rw [← h]
      by_cases hf : file = "contents" <;> simp [hf]

/-- Shape of a successful copy (`copy = true`) tail of `grab`. -/
theorem grabFinish_copy_state (ks : Secret → Nat → Nat)
    (tagf : Secret → Bytes → Bytes) (σ : Sys) (file : String)
    (secret : Secret) (kr' : List (String × Bytes)) (σ' : Sys)
    (h : Sys.grabFinish ks tagf σ file true secret kr' = (Res.ok, σ')) :
    ∃ buf pt, lookupKV σ.stash.vault file = some buf ∧
      decryptBuf ks tagf secret buf = some pt ∧
      σ' = { σ with
              stash := { σ.stash with
                          vault := insertKV σ.stash.vault file pt
                          keyring := kr' }
              cwd := insertKV σ.cwd file pt } := by
  cases hv : lookupKV σ.stash.vault file with
  | none => simp [Sys.grabFinish, hv] at h
  | some buf =>
    cases hd : decryptBuf ks tagf secret buf with
    | none => simp [Sys.grabFinish, hv, hd] at h
    | some pt =>
      refine ⟨buf, pt, rfl, hd, ?_⟩
      simp [Sys.grabFinish, hv, hd] at h
      exact h.symm

/-- Once the three entry guards of `grab` pass, the call is exactly the
two-tier lookup followed by the tail. -/
theorem grab_eq_cases (ks : Secret → Nat → Nat)
    (tagf : Secret → Bytes → Bytes) (σ : Sys) (file : String) (copy : Bool)
    (hp : σ.stash.pathExists = true)
    (hg : ¬(σ.stash.isArchived = true ∧ copy = false ∧ file ≠ "contents"))
    (hd : hasKey σ.cwd file = false) :
    Sys.grab ks tagf σ file copy =
      match lookupKV σ.stash.keyring file with
      | some v =>
        match Secret.fromBytes v with
        | none => (Res.crash, σ)
        | some sc =>
            Sys.grabFinish ks tagf σ file copy sc
              (if copy then σ.stash.keyring else eraseKV σ.stash.keyring file)
      | none =>
        match lookupKV σ.stash.db file with
        | some v =>
          match Secret.fromBytes v with
          | none => (Res.crash, σ)
          | some sd => Sys.grabFinish ks tagf σ file copy sd σ.stash.keyring
        | none => (Res.err ⟨.notFound, "Secret not found"⟩, σ) := by
  simp [Sys.grab, hp, hg, hd]

/-- Shape of a successful `unpack` tail. -/
theorem unpackFinish_ok_state (ks : Secret → Nat → Nat)
    (tagf : Secret → Bytes → Bytes)
    (unpk : Bytes → Option (List (String × Bytes))) (σ : Sys)
    (secret : Secret) (kr' : List (String × Bytes)) (σ' : Sys)
    (h : Sys.unpackFinish ks tagf unpk σ secret kr' = (Res.ok, σ')) :
    σ'.stash.isArchived = false ∧
      hasKey σ'.stash.vault "contents" = false ∧
      lookupKV σ'.stash.db "contents" = none := by
  cases hv : lookupKV σ.stash.vault "contents" with
  | none => simp [Sys.unpackFinish, hv] at h
  | some buf =>
    cases hd : decryptBuf ks tagf secret buf with
    | none => simp [Sys.unpackFinish, hv, hd] at h
    | some pt =>
      cases hu : unpk pt with
      | none => simp [Sys.unpackFinish, hv, hd, hu] at h
      | some entries =>
        simp [Sys.unpackFinish, hv, hd, hu] at h
        subst h
        simp [hasKey, lookupKV_eraseKV]

/-- C3: `is_archived` is derived, not stored — `Stash::new` computes it on
every open as "does the contents file exist", and each successful
archive-state-changing operation (`archive`, `unpack`, and the
`delete`/`grab` cases that remove the contents file) leaves the flag equal
to the existence of the contents file; in particular after `archive()` it
is `true` and after `unpack()` it is `false`. -/
theorem C3_is_archived_tracks_filesystem :
    (∀ (pe : Bool) (v kr db : List (String × Bytes)),
      (Stash.new pe v kr db).isArchived = hasKey v "contents") ∧
    (∀ (ks : Secret → Nat → Nat) (tagf : Secret → Bytes → Bytes)
       (pack : List (String × Bytes) → Bytes) (σ σ' : Sys) (s : Secret),
      Sys.archive ks tagf pack σ s = (Res.ok, σ') →
        σ'.stash.isArchived = true ∧ hasKey σ'.stash.vault "contents" = true) ∧
    (∀ (ks : Secret → Nat → Nat) (tagf : Secret → Bytes → Bytes)
       (unpk : Bytes → Option (List (String × Bytes))) (σ σ' : Sys),
      Sys.unpack ks tagf unpk σ = (Res.ok, σ') →
        σ'.stash.isArchived = false ∧ hasKey σ'.stash.vault "contents" = false) ∧
    (∀ (σ σ' : Sys), Sys.delete σ "contents" = (Res.ok, σ') →
        σ'.stash.isArchived = false ∧ hasKey σ'.stash.vault "contents" = false) ∧
    (∀ (ks : Secret → Nat → Nat) (tagf : Secret → Bytes → Bytes) (σ σ' : Sys),
      Sys.grab ks tagf σ "contents" false = (Res.ok, σ') →
        σ'.stash.isArchived = false ∧ hasKey σ'.stash.vault "contents" = false) := by
  refine ⟨fun pe v kr db => rfl, ?_, ?_, ?_, ?_⟩
  · intro ks tagf pack σ σ' s h
    by_cases hp : σ.stash.pathExists = true
    · by_cases ha : σ.stash.isArchived = true
      · simp [Sys.archive, hp, ha] at h
      · by_cases hdb : σ.stash.db = []
        · simp [Sys.archive, hp, ha, hdb] at h
        · by_cases hv : σ.stash.vault = []
          · simp [Sys.archive, hp, ha, hdb, hv] at h
          · simp [Sys.archive, hp, ha, hdb, hv] at h
            subst h
            simp [hasKey, lookupKV]
    · simp only [Bool.not_eq_true] at hp
      simp [Sys.archive, hp] at h
  · intro ks tagf unpk σ σ' h
    by_cases hp : σ.stash.pathExists = true
    · by_cases ha : σ.stash.isArchived = false
      · simp [Sys.unpack, hp, ha] at h
      · rcases hk : lookupKV σ.stash.keyring "contents" with _ | v
        · rcases hd : lookupKV σ.stash.db "contents" with _ | v
          · simp [Sys.unpack, hp, ha, hk, hd] at h
          · rcases hs : Secret.fromBytes v with _ | secret
            · simp [Sys.unpack, hp, ha, hk, hd, hs] at h
            · have h2 := unpackFinish_ok_state ks tagf unpk σ secret
                σ.stash.keyring σ'
                (by simpa [Sys.unpack, hp, ha, hk, hd, hs] using h)
              exact ⟨h2.1, h2.2.1⟩
        · rcases hs : Secret.fromBytes v with _ | secret
          · simp [Sys.unpack, hp, ha, hk, hs] at h
          · have h2 := unpackFinish_ok_state ks tagf unpk σ secret
              (eraseKV σ.stash.keyring "contents") σ'
              (by simpa [Sys.unpack, hp, ha, hk, hs] using h)
            exact ⟨h2.1, h2.2.1⟩
    · simp only [Bool.not_eq_true] at hp
      simp [Sys.unpack, hp] at h
  · intro σ σ' h
    by_cases hp : σ.stash.pathExists = true
    · by_cases hv : hasKey σ.stash.vault "contents" = false
      · simp [Sys.delete, hp, hv] at h
      · simp only [Bool.not_eq_false] at hv
        simp [Sys.delete, hp, hv] at h
        subst h
        simp [hasKey, lookupKV_eraseKV]
    · simp only [Bool.not_eq_true] at hp
      simp [Sys.delete, hp] at h
  · intro ks tagf σ σ' h
    by_cases hp : σ.stash.pathExists = true
    · by_cases hd : hasKey σ.cwd "contents" = false
      · rw [grab_eq_cases ks tagf σ "contents" false hp (by simp) hd] at h
        rcases hk : lookupKV σ.stash.keyring "contents" with _ | v
        · rcases hdb : lookupKV σ.stash.db "contents" with _ | v
          · simp [hk, hdb] at h
          · rcases hs : Secret.fromBytes v with _ | secret
            · simp [hk, hdb, hs] at h
            · simp only [hk, hdb, hs] at h
              obtain ⟨buf, pt, -, -, rfl⟩ :=
                grabFinish_move_state ks tagf σ "contents" secret
                  σ.stash.keyring σ' h
              simp [hasKey, lookupKV_eraseKV]
        · rcases hs : Secret.fromBytes v with _ | secret
          · simp [hk, hs] at h
          · simp only [hk, hs] at h
            obtain ⟨buf, pt, -, -, rfl⟩ :=
              grabFinish_move_state ks tagf σ "contents" secret
                (eraseKV σ.stash.keyring "contents") σ' h
            simp [hasKey, lookupKV_eraseKV]
      · simp only [Bool.not_eq_false] at hd
        simp [Sys.grab, hp, hd] at h
    · simp only [Bool.not_eq_true] at hp
      simp [Sys.grab, hp] at h

/-- C4: the lookup `grab` performs.  (1) When both tiers miss, `grab`
fails with `NotFound` ("Secret not found").  (2) On a session-cache hit the
cache's value is the secret used — the call reduces to the tail applied to
the cache's secret, with no dependence on what the persistent store holds
for the same description — and the cache entry is invalidated exactly when
the file is being moved out (`copy = false`), even when a later step
fails.  (3) Concretely, a file encrypted under the cached secret is
successfully decrypted even when the store binds a different value.
(4) On a cache miss the persistent store supplies the secret. -/
theorem C4_grab_lookup_policy :
    (∀ (ks : Secret → Nat → Nat) (tagf : Secret → Bytes → Bytes)
       (σ : Sys) (file : String) (copy : Bool),
      σ.stash.pathExists = true →
      ¬(σ.stash.isArchived = true ∧ copy = false ∧ file ≠ "contents") →
      hasKey σ.cwd file = false →
      lookupKV σ.stash.keyring file = none →
      lookupKV σ.stash.db file = none →
        Sys.grab ks tagf σ file copy
          = (Res.err ⟨EKind.notFound, "Secret not found"⟩, σ)) ∧
    (∀ (ks : Secret → Nat → Nat) (tagf : Secret → Bytes → Bytes)
       (σ : Sys) (file : String) (copy : Bool) (v : Bytes) (sc : Secret),
      σ.stash.pathExists = true →
      ¬(σ.stash.isArchived = true ∧ copy = false ∧ file ≠ "contents") →
      hasKey σ.cwd file = false →
      lookupKV σ.stash.keyring file = some v →
      Secret.fromBytes v = some sc →
        Sys.grab ks tagf σ file copy
          = Sys.grabFinish ks tagf σ file copy sc
              (if copy then σ.stash.keyring else eraseKV σ.stash.keyring file) ∧
        ((Sys.grab ks tagf σ file copy).2).stash.keyring
          = (if copy then σ.stash.keyring else eraseKV σ.stash.keyring file)) ∧
    (∀ (ks : Secret → Nat → Nat) (tagf : Secret → Bytes → Bytes)
       (σ : Sys) (file : String) (copy : Bool) (v : Bytes) (sc : Secret)
       (F : Bytes),
      σ.stash.pathExists = true →
      ¬(σ.stash.isArchived = true ∧ copy = false ∧ file ≠ "contents") →
      hasKey σ.cwd file = false →
      lookupKV σ.stash.keyring file = some v →
      Secret.fromBytes v = some sc →
      lookupKV σ.stash.vault file = some (encryptBuf ks tagf sc F) →
      (tagf sc (xorStream (ks sc) F)).length = 16 →
        (Sys.grab ks tagf σ file copy).1 = Res.ok ∧
        lookupKV ((Sys.grab ks tagf σ file copy).2).cwd file = some F) ∧
    (∀ (ks : Secret → Nat → Nat) (tagf : Secret → Bytes → Bytes)
       (σ : Sys) (file : String) (copy : Bool) (v : Bytes) (sd : Secret),
      σ.stash.pathExists = true →
      ¬(σ.stash.isArchived = true ∧ copy = false ∧ file ≠ "contents") →
      hasKey σ.cwd file = false →
      lookupKV σ.stash.keyring file = none →
      lookupKV σ.stash.db file = some v →
      Secret.fromBytes v = some sd →
        Sys.grab ks tagf σ file copy
          = Sys.grabFinish ks tagf σ file copy sd σ.stash.keyring) := by
  refine ⟨?_, ?_, ?_, ?_⟩
  · intro ks tagf σ file copy hp hg hd hk hdb
    rw [grab_eq_cases ks tagf σ file copy hp hg hd]
    simp [hk, hdb]
  · intro ks tagf σ file copy v sc hp hg hd hk hs
    have heq : Sys.grab ks tagf σ file copy
        = Sys.grabFinish ks tagf σ file copy sc
            (if copy then σ.stash.keyring else eraseKV σ.stash.keyring file) := by
      rw [grab_eq_cases ks tagf σ file copy hp hg hd]
      simp [hk, hs]
    exact ⟨heq, by rw [heq, grabFinish_keyring]⟩
  · intro ks tagf σ file copy v sc F hp hg hd hk hs hv htag
    have heq : Sys.grab ks tagf σ file copy
        = Sys.grabFinish ks tagf σ file copy sc
            (if copy then σ.stash.keyring else eraseKV σ.stash.keyring file) := by
      rw [grab_eq_cases ks tagf σ file copy hp hg hd]
      simp [hk, hs]
    rw [heq]
    have hdec := decryptBuf_encryptBuf ks tagf sc F htag
    cases copy <;>
      simp [Sys.grabFinish, hv, hdec, lookupKV_insertKV_self]
  · intro ks tagf σ file copy v sd hp hg hd hk hdb hs
    rw [grab_eq_cases ks tagf σ file copy hp hg hd]
    simp [hk, hdb, hs]

/-- C5: when `grab(file, copy = true)` succeeds, the copy of the file left
in the vault root has been decrypted in place and stays in plaintext (the
vault now holds exactly the decrypted bytes, the same bytes handed to the
caller), and the persistent store still holds its secret entry (the sled
db is untouched, as is the session keyring). -/
theorem C5_grab_copy_leaves_plaintext (ks : Secret → Nat → Nat)
    (tagf : Secret → Bytes → Bytes) (σ σ' : Sys) (file : String)
    (h : Sys.grab ks tagf σ file true = (Res.ok, σ')) :
    σ'.stash.db = σ.stash.db ∧
    σ'.stash.keyring = σ.stash.keyring ∧
    ∃ s buf pt, Stash.lookupSecret σ.stash file = some s ∧
      lookupKV σ.stash.vault file = some buf ∧
      decryptBuf ks tagf s buf = some pt ∧
      lookupKV σ'.stash.vault file = some pt ∧
      lookupKV σ'.cwd file = some pt := by
  by_cases hp : σ.stash.pathExists = true
  · by_cases hd : hasKey σ.cwd file = false
    · rw [grab_eq_cases ks tagf σ file true hp (by simp) hd] at h
      rcases hk : lookupKV σ.stash.keyring file with _ | v
      · rcases hdb : lookupKV σ.stash.db file with _ | v
        · simp [hk, hdb] at h
        · rcases hs : Secret.fromBytes v with _ | sd
          · simp [hk, hdb, hs] at h
          · simp only [hk, hdb, hs] at h
            obtain ⟨buf, pt, hv, hdec, rfl⟩ :=
              grabFinish_copy_state ks tagf σ file sd σ.stash.keyring σ' h
            exact ⟨rfl, rfl, sd, buf, pt,
              by simp [Stash.lookupSecret, hk, hdb, hs], hv, hdec,
              lookupKV_insertKV_self _ _ _, lookupKV_insertKV_self _ _ _⟩
      · rcases hs : Secret.fromBytes v with _ | sc
        · simp [hk, hs] at h
        · simp only [hk, hs, if_pos] at h
          obtain ⟨buf, pt, hv, hdec, rfl⟩ :=
            grabFinish_copy_state ks tagf σ file sc σ.stash.keyring σ' h
          exact ⟨rfl, rfl, sc, buf, pt,
            by simp [Stash.lookupSecret, hk, hs], hv, hdec,
            lookupKV_insertKV_self _ _ _, lookupKV_insertKV_self _ _ _⟩
    · simp only [Bool.not_eq_false] at hd
      simp [Sys.grab, hp, hd] at h
  · simp only [Bool.not_eq_true] at hp
    simp [Sys.grab, hp] at h

theorem hasKey_false_iff (m : List (String × Bytes)) (k : String) :
    hasKey m k = false ↔ lookupKV m k = none := by
  unfold hasKey
  cases lookupKV m k <;> simp

/-- The state an archived stash used as the C6 counterexample is in: the
vault root exists, is in archive mode, and already holds a file `x`; the
caller's directory also holds an `x`. -/
def sysC6 : Sys :=
  { stash :=
      { pathExists := true
        vault := [("x", [0])]
        isArchived := true
        keyring := []
        db := [] }
    cwd := [("x", [1])]
    cwdDirs := [] }

/-- C6 counterexample: `add` on an archived stash whose vault already
contains the destination name fails with `InvalidInput` (the archive-mode
guard fires first), not with `AlreadyExists`, even though the destination
path already exists. -/
theorem C6_counterexample :
    hasKey sysC6.stash.vault "x" = true ∧
    Sys.add ksTriv tagTriv sysC6 "x" false secretTriv
      = (Res.err ⟨EKind.invalidInput,
          "Stash is in archive mode. Call `stash unpack` before adding more files"⟩,
         sysC6) := by
  constructor
  · decide
  · rfl

/-- C6 amended: `add` and `grab` never overwrite an existing destination.
Whenever the destination already exists (the file's name in the vault root
for `add`, the file's name in the caller's current directory for `grab`)
the operation fails and leaves the entire state — in particular the
existing destination file — untouched; the error is `AlreadyExists`
whenever no earlier guard (missing stash root, archive mode, directory
source) has already rejected the call with its own error. -/
theorem C6_no_silent_overwrite :
    (∀ (ks : Secret → Nat → Nat) (tagf : Secret → Bytes → Bytes)
       (σ : Sys) (file : String) (copy : Bool) (s : Secret) (name : String),
      fileName file = some name → hasKey σ.stash.vault name = true →
        (Sys.add ks tagf σ file copy s).1 ≠ Res.ok ∧
        (Sys.add ks tagf σ file copy s).2 = σ ∧
        (σ.stash.pathExists = true → σ.stash.isArchived = false →
          σ.cwdDirs.contains file = false →
          Sys.add ks tagf σ file copy s
            = (Res.err ⟨EKind.alreadyExists, "File already in stash"⟩, σ))) ∧
    (∀ (ks : Secret → Nat → Nat) (tagf : Secret → Bytes → Bytes)
       (σ : Sys) (file : String) (copy : Bool),
      hasKey σ.cwd file = true →
        (Sys.grab ks tagf σ file copy).1 ≠ Res.ok ∧
        (Sys.grab ks tagf σ file copy).2 = σ ∧
        (σ.stash.pathExists = true →
          ¬(σ.stash.isArchived = true ∧ copy = false ∧ file ≠ "contents") →
          Sys.grab ks tagf σ file copy
            = (Res.err ⟨EKind.alreadyExists,
                "File already exists in current directory"⟩, σ))) := by
  constructor
  · intro ks tagf σ file copy s name hname hvault
    by_cases hp : σ.stash.pathExists = true
    · by_cases ha : σ.stash.isArchived = true
      · refine ⟨by simp [Sys.add, hp, ha], by simp [Sys.add, hp, ha], ?_⟩
        intro _ hia _
        rw [ha] at hia
        cases hia
      · by_cases hc : σ.cwdDirs.contains file = true
        · have hm : file ∈ σ.cwdDirs := by simpa using hc
          refine ⟨by simp [Sys.add, hp, ha, hm],
                  by simp [Sys.add, hp, ha, hm], ?_⟩
          intro _ _ hcf
          rw [hc] at hcf
          cases hcf
        · have hm : file ∉ σ.cwdDirs := by simpa using hc
          refine ⟨by simp [Sys.add, hp, ha, hm, hname, hvault],
                  by simp [Sys.add, hp, ha, hm, hname, hvault], ?_⟩
          intro _ _ _
          simp [Sys.add, hp, ha, hm, hname, hvault]
    · have hp' : σ.stash.pathExists = false := by simpa using hp
      refine ⟨by simp [Sys.add, hp'], by simp [Sys.add, hp'], ?_⟩
      intro hpp _ _
      rw [hp'] at hpp
      cases hpp
  · intro ks tagf σ file copy hdst
    by_cases hp : σ.stash.pathExists = true
    · by_cases hg : σ.stash.isArchived = true ∧ copy = false ∧ file ≠ "contents"
      · refine ⟨by simp [Sys.grab, hp, hg], by simp [Sys.grab, hp, hg], ?_⟩
        intro _ hg'
        exact absurd hg hg'
      · refine ⟨by simp [Sys.grab, hp, hg, hdst],
                by simp [Sys.grab, hp, hg, hdst], ?_⟩
        intro _ _
        simp [Sys.grab, hp, hg, hdst]
    · have hp' : σ.stash.pathExists = false := by simpa using hp
      refine ⟨by simp [Sys.grab, hp'], by simp [Sys.grab, hp'], ?_⟩
      intro hpp _
      rw [hp'] at hpp
      cases hpp

/-- C7: operations invoked in the wrong archive state fail with
`InvalidInput` and return with the whole state unchanged: `add` while
archived, a second `archive()` right after a successful one, `unpack`
while not archived, and the move-`grab`/`delete` of a non-container file
while archived. -/
theorem C7_wrong_state_invalid_input :
    (∀ (ks : Secret → Nat → Nat) (tagf : Secret → Bytes → Bytes)
       (σ : Sys) (file : String) (copy : Bool) (s : Secret),
      σ.stash.pathExists = true → σ.stash.isArchived = true →
        Sys.add ks tagf σ file copy s
          = (Res.err ⟨EKind.invalidInput,
              "Stash is in archive mode. Call `stash unpack` before adding more files"⟩,
             σ)) ∧
    (∀ (ks : Secret → Nat → Nat) (tagf : Secret → Bytes → Bytes)
       (pack : List (String × Bytes) → Bytes) (σ σ' : Sys) (s s' : Secret),
      Sys.archive ks tagf pack σ s = (Res.ok, σ') →
        Sys.archive ks tagf pack σ' s'
          = (Res.err ⟨EKind.invalidInput, "Archive already exists"⟩, σ')) ∧
    (∀ (ks : Secret → Nat → Nat) (tagf : Secret → Bytes → Bytes)
       (unpk : Bytes → Option (List (String × Bytes))) (σ : Sys),
      σ.stash.pathExists = true → σ.stash.isArchived = false →
        Sys.unpack ks tagf unpk σ
          = (Res.err ⟨EKind.invalidInput, "No archive exists"⟩, σ)) ∧
    (∀ (ks : Secret → Nat → Nat) (tagf : Secret → Bytes → Bytes)
       (σ : Sys) (file : String),
      σ.stash.pathExists = true → σ.stash.isArchived = true →
      file ≠ "contents" →
        Sys.grab ks tagf σ file false
          = (Res.err ⟨EKind.invalidInput,
              "Stash is in archive mode. Use `stash unpack` to unpack"⟩, σ)) ∧
    (∀ (σ : Sys) (file : String),
      σ.stash.pathExists = true → σ.stash.isArchived = true →
      file ≠ "contents" →
        Sys.delete σ file
          = (Res.err ⟨EKind.invalidInput,
              "Stash is in archive mode. Use `stash unpack` to unpack"⟩, σ)) := by
  refine ⟨?_, ?_, ?_, ?_, ?_⟩
  · intro ks tagf σ file copy s hp ha
    simp [Sys.add, hp, ha]
  · intro ks tagf pack σ σ' s s' h
    by_cases hp : σ.stash.pathExists = true
    · by_cases ha : σ.stash.isArchived = true
      · simp [Sys.archive, hp, ha] at h
      · by_cases hdb : σ.stash.db = []
        · simp [Sys.archive, hp, ha, hdb] at h
        · by_cases hv : σ.stash.vault = []
          · simp [Sys.archive, hp, ha, hdb, hv] at h
          · simp [Sys.archive, hp, ha, hdb, hv] at h
            subst h
            simp [Sys.archive, hp]
    · have hp' : σ.stash.pathExists = false := by simpa using hp
      simp [Sys.archive, hp'] at h
  · intro ks tagf unpk σ hp ha
    simp [Sys.unpack, hp, ha]
  · intro ks tagf σ file hp ha hf
    simp [Sys.grab, hp, ha, hf]
  · intro σ file hp ha hf
    simp [Sys.delete, hp, ha, hf]

/-- C8: the persistent-store key written by `add` is the whole `file`
argument exactly as given (the full path), while `grab` looks both tiers
up under its own `file` argument verbatim; hence adding `p` with a
directory component and then grabbing the bare file name of `p` fails with
`NotFound` ("Secret not found") although the encrypted file sits in the
vault under that bare name. -/
theorem C8_description_is_full_path (ks : Secret → Nat → Nat)
    (tagf : Secret → Bytes → Bytes) (σ : Sys) (p name : String)
    (copy copy' : Bool) (s : Secret) (data : Bytes)
    (hname : fileName p = some name) (hne : name ≠ p)
    (hp : σ.stash.pathExists = true)
    (ha : σ.stash.isArchived = false)
    (hdir : σ.cwdDirs.contains p = false)
    (hvault : hasKey σ.stash.vault name = false)
    (hsrc : lookupKV σ.cwd p = some data)
    (hcwdn : lookupKV σ.cwd name = none)
    (hkrn : lookupKV σ.stash.keyring name = none)
    (hdbn : lookupKV σ.stash.db name = none) :
    ∃ σ', Sys.add ks tagf σ p copy s = (Res.ok, σ') ∧
      lookupKV σ'.stash.db p = some s.join ∧
      Sys.grab ks tagf σ' name copy'
        = (Res.err ⟨EKind.notFound, "Secret not found"⟩, σ') := by
  have ha' : ¬ σ.stash.isArchived = true := by simp [ha]
  have hm : p ∉ σ.cwdDirs := by simpa using hdir
  have hadd : Sys.add ks tagf σ p copy s
      = (Res.ok,
         { σ with
            stash := { σ.stash with
                        vault := insertKV σ.stash.vault name
                          (encryptBuf ks tagf s data)
                        db := insertKV σ.stash.db p s.join
                        keyring := insertKV σ.stash.keyring p s.join }
            cwd := if copy then σ.cwd else eraseKV σ.cwd p }) := by
    simp [Sys.add, hp, ha', hm, hname, hvault, hsrc]
  refine ⟨_, hadd, lookupKV_insertKV_self _ _ _, ?_⟩
  have hdst : hasKey (if copy then σ.cwd else eraseKV σ.cwd p) name = false := by
    rw [hasKey_false_iff]
    cases copy <;> simp [hcwdn, lookupKV_eraseKV, hne]
  simp [Sys.grab, hp, ha, hdst, lookupKV_insertKV, hne, hkrn, hdbn]

/-- C9: `archive()` on a vault whose persistent store is empty fails with
`InvalidInput` and leaves the state untouched, so no container file is
ever created from an empty store; when the stash is not already in archive
mode the message is the "No files in stash" one. -/
theorem C9_archive_refuses_empty_store (ks : Secret → Nat → Nat)
    (tagf : Secret → Bytes → Bytes) (pack : List (String × Bytes) → Bytes)
    (σ : Sys) (s : Secret)
    (hp : σ.stash.pathExists = true) (hdb : σ.stash.db = []) :
    (∃ m, Sys.archive ks tagf pack σ s
        = (Res.err ⟨EKind.invalidInput, m⟩, σ)) ∧
    (σ.stash.isArchived = false →
      Sys.archive ks tagf pack σ s
        = (Res.err ⟨EKind.invalidInput, "No files in stash: .db is empty"⟩, σ)) := by
  by_cases ha : σ.stash.isArchived = true
  · refine ⟨⟨"Archive already exists", by simp [Sys.archive, hp, ha]⟩, ?_⟩
    intro ha'
    rw [ha] at ha'
    cases ha'
  · exact ⟨⟨"No files in stash: .db is empty", by simp [Sys.archive, hp, ha, hdb]⟩,
      fun _ => by simp [Sys.archive, hp, ha, hdb]⟩

/-! ### Concrete states used by the witnesses -/

/-- An unarchived stash holding one encrypted file `a` with its db entry. -/
def sysArcW : Sys :=
  { stash := { pathExists := true, vault := [("a", [5])], isArchived := false,
               keyring := [], db := [("a", secretTriv.join)] }
    cwd := [], cwdDirs := [] }

/-- An archived stash whose container decrypts under `secretTriv` (held in
the db tier). -/
def sysUnpW : Sys :=
  { stash := { pathExists := true, vault := [("contents", List.replicate 17 0)],
               isArchived := true, keyring := [],
               db := [("contents", secretTriv.join)] }
    cwd := [], cwdDirs := [] }

/-- An archived stash with a container file and empty stores. -/
def sysDelW : Sys :=
  { stash := { pathExists := true, vault := [("contents", [0])],
               isArchived := true, keyring := [], db := [] }
    cwd := [], cwdDirs := [] }

/-- An archived stash whose container's secret sits in the keyring tier. -/
def sysGrbW : Sys :=
  { stash := { pathExists := true, vault := [("contents", List.replicate 17 0)],
               isArchived := true, keyring := [("contents", secretTriv.join)],
               db := [] }
    cwd := [], cwdDirs := [] }

/-- An empty unarchived stash. -/
def sysLk1 : Sys :=
  { stash := { pathExists := true, vault := [], isArchived := false,
               keyring := [], db := [] }
    cwd := [], cwdDirs := [] }

/-- A stash where the two tiers disagree about `f`: the keyring holds
`secretTriv` (the secret the vault file is encrypted under) while the db
holds the different `secretTriv2`. -/
def sysLk2 : Sys :=
  { stash := { pathExists := true,
               vault := [("f", encryptBuf ksTriv tagTriv secretTriv [9])],
               isArchived := false, keyring := [("f", secretTriv.join)],
               db := [("f", secretTriv2.join)] }
    cwd := [], cwdDirs := [] }

/-- A stash where only the db tier holds the secret for `f`. -/
def sysLk4 : Sys :=
  { stash := { pathExists := true,
               vault := [("f", encryptBuf ksTriv tagTriv secretTriv [9])],
               isArchived := false, keyring := [],
               db := [("f", secretTriv.join)] }
    cwd := [], cwdDirs := [] }

/-- A stash holding an encrypted `f` with its secret in both tiers. -/
def sysC5W : Sys :=
  { stash := { pathExists := true,
               vault := [("f", encryptBuf ksTriv tagTriv secretTriv [9])],
               isArchived := false, keyring := [("f", secretTriv.join)],
               db := [("f", secretTriv.join)] }
    cwd := [], cwdDirs := [] }

/-- An unarchived stash that already holds `g`, with a `g` in the caller's
directory as well. -/
def sysAddDstW : Sys :=
  { stash := { pathExists := true, vault := [("g", [3])], isArchived := false,
               keyring := [], db := [] }
    cwd := [("g", [4])], cwdDirs := [] }

/-- An empty stash with an `h` already in the caller's directory. -/
def sysGrabDstW : Sys :=
  { stash := { pathExists := true, vault := [], isArchived := false,
               keyring := [], db := [] }
    cwd := [("h", [1])], cwdDirs := [] }

/-- An archived stash used for the wrong-state witnesses. -/
def sysArchModeW : Sys :=
  { stash := { pathExists := true, vault := [("contents", [0])],
               isArchived := true, keyring := [], db := [] }
    cwd := [], cwdDirs := [] }

/-- An unarchived stash with a source file under a relative path with a
directory component. -/
def sysPathW : Sys :=
  { stash := { pathExists := true, vault := [], isArchived := false,
               keyring := [], db := [] }
    cwd := [("dir/f.txt", [7])], cwdDirs := [] }

/-- An unarchived stash whose persistent store is empty although a file is
present in the vault root. -/
def sysEmptyDbW : Sys :=
  { stash := { pathExists := true, vault := [("a", [5])], isArchived := false,
               keyring := [], db := [] }
    cwd := [], cwdDirs := [] }

/-! ### Witnesses -/

/-- Witness for C3: each clause at a concrete run that succeeds. -/
theorem C3_is_archived_tracks_filesystem_witness :
    (Stash.new true [("contents", [0])] [] []).isArchived
      = hasKey [("contents", [0])] "contents" ∧
    ((Sys.archive ksTriv tagTriv packTriv sysArcW secretTriv2).2.stash.isArchived
        = true ∧
      hasKey (Sys.archive ksTriv tagTriv packTriv sysArcW secretTriv2).2.stash.vault
        "contents" = true) ∧
    ((Sys.unpack ksTriv tagTriv unpkTriv sysUnpW).2.stash.isArchived = false ∧
      hasKey (Sys.unpack ksTriv tagTriv unpkTriv sysUnpW).2.stash.vault
        "contents" = false) ∧
    ((Sys.delete sysDelW "contents").2.stash.isArchived = false ∧
      hasKey (Sys.delete sysDelW "contents").2.stash.vault "contents" = false) ∧
    ((Sys.grab ksTriv tagTriv sysGrbW "contents" false).2.stash.isArchived = false ∧
      hasKey (Sys.grab ksTriv tagTriv sysGrbW "contents" false).2.stash.vault
        "contents" = false) :=
  ⟨C3_is_archived_tracks_filesystem.1 true [("contents", [0])] [] [],
   C3_is_archived_tracks_filesystem.2.1 ksTriv tagTriv packTriv sysArcW _
     secretTriv2 (by decide),
   C3_is_archived_tracks_filesystem.2.2.1 ksTriv tagTriv unpkTriv sysUnpW _
     (by decide),
   C3_is_archived_tracks_filesystem.2.2.2.1 sysDelW _ (by decide),
   C3_is_archived_tracks_filesystem.2.2.2.2 ksTriv tagTriv sysGrbW _ (by decide)⟩

/-- Witness for C4: the four lookup clauses at concrete stashes; in the
precedence clause the db holds `secretTriv2` while the cache's `secretTriv`
is the one that decrypts the file. -/
theorem C4_grab_lookup_policy_witness :
    Sys.grab ksTriv tagTriv sysLk1 "f" true
      = (Res.err ⟨EKind.notFound, "Secret not found"⟩, sysLk1) ∧
    (Sys.grab ksTriv tagTriv sysLk2 "f" false
      = Sys.grabFinish ksTriv tagTriv sysLk2 "f" false secretTriv
          (eraseKV sysLk2.stash.keyring "f") ∧
     ((Sys.grab ksTriv tagTriv sysLk2 "f" false).2).stash.keyring
      = eraseKV sysLk2.stash.keyring "f") ∧
    ((Sys.grab ksTriv tagTriv sysLk2 "f" false).1 = Res.ok ∧
     lookupKV ((Sys.grab ksTriv tagTriv sysLk2 "f" false).2).cwd "f"
       = some [9]) ∧
    Sys.grab ksTriv tagTriv sysLk4 "f" true
      = Sys.grabFinish ksTriv tagTriv sysLk4 "f" true secretTriv
          sysLk4.stash.keyring :=
  ⟨C4_grab_lookup_policy.1 ksTriv tagTriv sysLk1 "f" true (by decide)
     (by decide) (by decide) (by decide) (by decide),
   C4_grab_lookup_policy.2.1 ksTriv tagTriv sysLk2 "f" false secretTriv.join
     secretTriv (by decide) (by decide) (by decide) (by decide) (by decide),
   C4_grab_lookup_policy.2.2.1 ksTriv tagTriv sysLk2 "f" false secretTriv.join
     secretTriv [9] (by decide) (by decide) (by decide) (by decide) (by decide)
     (by decide) (by decide),
   C4_grab_lookup_policy.2.2.2 ksTriv tagTriv sysLk4 "f" true secretTriv.join
     secretTriv (by decide) (by decide) (by decide) (by decide) (by decide)
     (by decide)⟩

/-- Witness for C5 at a concrete successful copying `grab`. -/
theorem C5_grab_copy_leaves_plaintext_witness :
    ((Sys.grab ksTriv tagTriv sysC5W "f" true).2).stash.db = sysC5W.stash.db ∧
    ((Sys.grab ksTriv tagTriv sysC5W "f" true).2).stash.keyring
      = sysC5W.stash.keyring ∧
    ∃ s buf pt, Stash.lookupSecret sysC5W.stash "f" = some s ∧
      lookupKV sysC5W.stash.vault "f" = some buf ∧
      decryptBuf ksTriv tagTriv s buf = some pt ∧
      lookupKV ((Sys.grab ksTriv tagTriv sysC5W "f" true).2).stash.vault "f"
        = some pt ∧
      lookupKV ((Sys.grab ksTriv tagTriv sysC5W "f" true).2).cwd "f" = some pt :=
  C5_grab_copy_leaves_plaintext ksTriv tagTriv sysC5W _ "f" (by decide)

/-- Witness for the amended C6 at concrete destination collisions. -/
theorem C6_no_silent_overwrite_witness :
    ((Sys.add ksTriv tagTriv sysAddDstW "g" false secretTriv).1 ≠ Res.ok ∧
     (Sys.add ksTriv tagTriv sysAddDstW "g" false secretTriv).2 = sysAddDstW ∧
     (sysAddDstW.stash.pathExists = true → sysAddDstW.stash.isArchived = false →
       sysAddDstW.cwdDirs.contains "g" = false →
       Sys.add ksTriv tagTriv sysAddDstW "g" false secretTriv
         = (Res.err ⟨EKind.alreadyExists, "File already in stash"⟩,
            sysAddDstW))) ∧
    ((Sys.grab ksTriv tagTriv sysGrabDstW "h" true).1 ≠ Res.ok ∧
     (Sys.grab ksTriv tagTriv sysGrabDstW "h" true).2 = sysGrabDstW ∧
     (sysGrabDstW.stash.pathExists = true →
       ¬(sysGrabDstW.stash.isArchived = true ∧ (true : Bool) = false ∧
         "h" ≠ "contents") →
       Sys.grab ksTriv tagTriv sysGrabDstW "h" true
         = (Res.err ⟨EKind.alreadyExists,
             "File already exists in current directory"⟩, sysGrabDstW))) :=
  ⟨C6_no_silent_overwrite.1 ksTriv tagTriv sysAddDstW "g" false secretTriv "g"
     (by decide) (by decide),
   C6_no_silent_overwrite.2 ksTriv tagTriv sysGrabDstW "h" true (by decide)⟩

/-- Witness for C7: each wrong-state rejection at a concrete state; the
second-archive clause is applied right after a concrete successful
`archive()`. -/
theorem C7_wrong_state_invalid_input_witness :
    Sys.add ksTriv tagTriv sysArchModeW "f" false secretTriv
      = (Res.err ⟨EKind.invalidInput,
          "Stash is in archive mode. Call `stash unpack` before adding more files"⟩,
         sysArchModeW) ∧
    Sys.archive ksTriv tagTriv packTriv
        (Sys.archive ksTriv tagTriv packTriv sysArcW secretTriv).2 secretTriv2
      = (Res.err ⟨EKind.invalidInput, "Archive already exists"⟩,
         (Sys.archive ksTriv tagTriv packTriv sysArcW secretTriv).2) ∧
    Sys.unpack ksTriv tagTriv unpkTriv sysLk1
      = (Res.err ⟨EKind.invalidInput, "No archive exists"⟩, sysLk1) ∧
    Sys.grab ksTriv tagTriv sysArchModeW "f" false
      = (Res.err ⟨EKind.invalidInput,
          "Stash is in archive mode. Use `stash unpack` to unpack"⟩,
         sysArchModeW) ∧
    Sys.delete sysArchModeW "f"
      = (Res.err ⟨EKind.invalidInput,
          "Stash is in archive mode. Use `stash unpack` to unpack"⟩,
         sysArchModeW) :=
  ⟨C7_wrong_state_invalid_input.1 ksTriv tagTriv sysArchModeW "f" false
     secretTriv (by decide) (by decide),
   C7_wrong_state_invalid_input.2.1 ksTriv tagTriv packTriv sysArcW _
     secretTriv secretTriv2 (by decide),
   C7_wrong_state_invalid_input.2.2.1 ksTriv tagTriv unpkTriv sysLk1
     (by decide) (by decide),
   C7_wrong_state_invalid_input.2.2.2.1 ksTriv tagTriv sysArchModeW "f"
     (by decide) (by decide) (by decide),
   C7_wrong_state_invalid_input.2.2.2.2 sysArchModeW "f" (by decide)
     (by decide) (by decide)⟩

/-- Witness for C8: `add "dir/f.txt"` succeeds, stores the secret under the
full path, and `grab "f.txt"` then fails with "Secret not found". -/
theorem C8_description_is_full_path_witness :
    ∃ σ', Sys.add ksTriv tagTriv sysPathW "dir/f.txt" false secretTriv
        = (Res.ok, σ') ∧
      lookupKV σ'.stash.db "dir/f.txt" = some secretTriv.join ∧
      Sys.grab ksTriv tagTriv σ' "f.txt" false
        = (Res.err ⟨EKind.notFound, "Secret not found"⟩, σ') :=
  C8_description_is_full_path ksTriv tagTriv sysPathW "dir/f.txt" "f.txt"
    false false secretTriv [7] (by decide) (by decide) (by decide) (by decide)
    (by decide) (by decide) (by decide) (by decide) (by decide) (by decide)

/-- Witness for C9 at a stash with an empty persistent store. -/
theorem C9_archive_refuses_empty_store_witness :
    (∃ m, Sys.archive ksTriv tagTriv packTriv sysEmptyDbW secretTriv
        = (Res.err ⟨EKind.invalidInput, m⟩, sysEmptyDbW)) ∧
    (sysEmptyDbW.stash.isArchived = false →
      Sys.archive ksTriv tagTriv packTriv sysEmptyDbW secretTriv
        = (Res.err ⟨EKind.invalidInput, "No files in stash: .db is empty"⟩,
           sysEmptyDbW)) :=
  C9_archive_refuses_empty_store ksTriv tagTriv packTriv sysEmptyDbW secretTriv
    (by decide) (by decide)

end StashModel
